import Mathlib

/-!
Verification of the audio capture pipeline of the avora-winter-audio-challenge
repository. The pipeline is the React hook in src/src/audio/useAudio.ts; this file
gives a shallow embedding of its state and of its operations (stop, start up to the
asynchronous microphone acquisition, the resumption of start when the acquisition
resolves, the per-frame refresh tick, and the unmount finalizer), and proves the
specified lifecycle, error-handling and ownership properties over that embedding.

Modelling conventions:
- React refs and useState cells become fields of PipelineState.
- The surrounding world (which hardware streams had their tracks stopped, which
  audio contexts were closed, which stream sources were disconnected, and a
  fresh-identity allocator for buffers, contexts and sources) is the World record.
- Uint8Array buffers carry an identity tag (id) so that in-place mutation versus
  reallocation is observable, and a data list of byte values.
- The asynchronous start is split at its single await point: startAcquire performs
  everything before the getUserMedia await (and reports the constraints requested),
  and startResume performs the continuation, taking the captured session value and
  the result of the acquisition (a granted stream or a thrown error).
- Analyser sample data delivered by getByteFrequencyData and getByteTimeDomainData
  is an environment input: each tick takes two sample functions and writes
  (sample i) mod 256 into position i of the buffer, in place.
-/

namespace AvoraAudio

/-- Constant DEFAULT_FFT_SIZE from useAudio.ts line 29. -/
def DEFAULT_FFT_SIZE : Nat := 2048

/-- A Uint8Array buffer: an identity tag (so that reallocation versus in-place
overwrite is observable) and its contents. -/
structure Buffer where
  id : Nat
  data : List Nat
deriving DecidableEq

/-- A Web Audio AnalyserNode: the identity of its AudioContext and its two
configurable fields. The value 0.8 written by the pipeline is the rational 4/5. -/
structure Analyser where
  ctxId : Nat
  fftSize : Nat
  smoothingTimeConstant : ℚ
deriving DecidableEq

/-- frequencyBinCount of an AnalyserNode is half its fftSize. -/
def Analyser.frequencyBinCount (a : Analyser) : Nat := a.fftSize / 2

/-- The audio constraints passed to getUserMedia. -/
structure MicConstraints where
  echoCancellation : Bool
  noiseSuppression : Bool
  autoGainControl : Bool
deriving DecidableEq

/-- The constraint object hard-coded at useAudio.ts lines 130 to 134. -/
def micAudioConstraints : MicConstraints :=
  { echoCancellation := false, noiseSuppression := false, autoGainControl := false }

/-- UseAudioOptions from useAudio.ts lines 3 to 12: the single recognized option is
an optional caller-supplied AnalyserNode. -/
structure UseAudioOptions where
  analyserNode : Option Analyser := none
deriving DecidableEq

/-- The mutable cells of the hook: the two useState cells (isActive, error), the two
data buffer refs, the five Web Audio refs, the ownership flag, the mounted flag and
the session counter. Contexts, sources and streams are represented by identity. -/
structure PipelineState where
  isActive : Bool
  error : Option String
  frequencyData : Buffer
  timeDomainData : Buffer
  audioContextRef : Option Nat
  analyserRef : Option Analyser
  sourceRef : Option Nat
  streamRef : Option Nat
  animationFrameRef : Option Nat
  userProvidedAnalyserRef : Bool
  mountedRef : Bool
  sessionRef : Nat
deriving DecidableEq

/-- The pipeline state plus the record of external effects: which streams had all
their tracks stopped, which sources were disconnected, which audio contexts were
closed, and the allocator for fresh identities. -/
structure World where
  st : PipelineState
  stoppedStreams : List Nat
  disconnectedSources : List Nat
  closedContexts : List Nat
  nextId : Nat
deriving DecidableEq

/-- The value thrown by a failed getUserMedia: a JavaScript Error with a name and a
message, or a non-Error value. -/
inductive AcquireError where
  | jsError (name message : String)
  | nonError
deriving DecidableEq

/-- The outcome of the awaited getUserMedia call: a granted hardware stream
(identified by a stream id) or a rejection. -/
inductive AcquireResult where
  | granted (streamId : Nat)
  | failed (e : AcquireError)
deriving DecidableEq

/-- Hook initialisation, useAudio.ts lines 41 to 62: isActive false, error null,
buffers allocated at DEFAULT_FFT_SIZE / 2 and DEFAULT_FFT_SIZE (zero-filled), all
Web Audio refs null, analyser not user-provided, mounted, session 0. The two
initial buffers receive identities 0 and 1 from the allocator. -/
def initWorld : World :=
  { st :=
      { isActive := false
        error := none
        frequencyData := ⟨0, List.replicate (DEFAULT_FFT_SIZE / 2) 0⟩
        timeDomainData := ⟨1, List.replicate DEFAULT_FFT_SIZE 0⟩
        audioContextRef := none
        analyserRef := none
        sourceRef := none
        streamRef := none
        animationFrameRef := none
        userProvidedAnalyserRef := false
        mountedRef := true
        sessionRef := 0 }
    stoppedStreams := []
    disconnectedSources := []
    closedContexts := []
    nextId := 2 }

/-- stop, useAudio.ts lines 64 to 98: bump the session counter; cancel the pending
animation frame; stop all tracks of the held stream and drop it; disconnect and
drop the source; when the analyser is pipeline-owned, close the audio context and
drop both; finally set isActive false when still mounted. Each cleanup step reads
fields no earlier step writes, so the sequential mutations are expressed as one
record update. -/
def stop (w : World) : World :=
  let s0 := w.st
  let stopped :=
    match s0.streamRef with
    | some sid => sid :: w.stoppedStreams
    | none => w.stoppedStreams
  let disc :=
    match s0.sourceRef with
    | some sc => sc :: w.disconnectedSources
    | none => w.disconnectedSources
  let closed :=
    if s0.userProvidedAnalyserRef then w.closedContexts
    else
      match s0.audioContextRef with
      | some c => c :: w.closedContexts
      | none => w.closedContexts
  let s1 : PipelineState :=
    { s0 with
      sessionRef := s0.sessionRef + 1
      animationFrameRef := none
      streamRef := none
      sourceRef := none
      audioContextRef := if s0.userProvidedAnalyserRef then s0.audioContextRef else none
      analyserRef := if s0.userProvidedAnalyserRef then s0.analyserRef else none
      isActive := if s0.mountedRef then false else s0.isActive }
  { w with st := s1, stoppedStreams := stopped, disconnectedSources := disc,
           closedContexts := closed }

/-- The error-message mapping of the catch block, useAudio.ts lines 170 to 180. -/
def errorMessageFor : AcquireError → String
  | .jsError name message =>
      if name = "NotAllowedError" then "Microphone permission denied"
      else if name = "NotFoundError" then "No microphone found"
      else message
  | .nonError => "Unknown error occurred"

/-- One tick of updateData, useAudio.ts lines 155 to 164: when the analyser ref is
still set and the initiating session is still current, overwrite both buffers in
place (same identity, same length, entries are the delivered samples reduced to
bytes) and schedule the next animation frame (a fresh frame id); otherwise do
nothing. -/
def updateData (currentSession : Nat) (freqSample timeSample : Nat → Nat)
    (w : World) : World :=
  match w.st.analyserRef with
  | none => w
  | some _ =>
      if currentSession = w.st.sessionRef then
        let s :=
          { w.st with
            frequencyData :=
              { w.st.frequencyData with
                data := (List.range w.st.frequencyData.data.length).map
                  (fun i => freqSample i % 256) }
            timeDomainData :=
              { w.st.timeDomainData with
                data := (List.range w.st.timeDomainData.data.length).map
                  (fun i => timeSample i % 256) }
            animationFrameRef := some w.nextId }
        { w with st := s, nextId := w.nextId + 1 }
      else w

/-- The value of start suspended at its await: the world after the synchronous
prefix, the captured session value, and the constraints passed to getUserMedia. -/
structure StartPending where
  world : World
  currentSession : Nat
  requested : MicConstraints
deriving DecidableEq

/-- The synchronous prefix of start, useAudio.ts lines 100 to 135: stop the
existing session, capture the current session value, clear the error when mounted,
install the caller-supplied analyser (recording that it is not owned) or create an
owned one with fftSize 2048 and smoothingTimeConstant 0.8 in a fresh context,
reallocate both buffers (fresh identities) sized to frequencyBinCount and fftSize,
then issue getUserMedia with the hard-coded constraints. -/
def startAcquire (options : UseAudioOptions) (w0 : World) : StartPending :=
  let w := stop w0
  let currentSession := w.st.sessionRef
  let s1 := { w.st with error := if w.st.mountedRef then none else w.st.error }
  match options.analyserNode with
  | some a =>
      let s2 :=
        { s1 with
          userProvidedAnalyserRef := true
          analyserRef := some a
          audioContextRef := some a.ctxId
          frequencyData := ⟨w.nextId, List.replicate a.frequencyBinCount 0⟩
          timeDomainData := ⟨w.nextId + 1, List.replicate a.fftSize 0⟩ }
      ⟨{ w with st := s2, nextId := w.nextId + 2 }, currentSession, micAudioConstraints⟩
  | none =>
      let a : Analyser :=
        { ctxId := w.nextId, fftSize := DEFAULT_FFT_SIZE, smoothingTimeConstant := 4 / 5 }
      let s2 :=
        { s1 with
          userProvidedAnalyserRef := false
          analyserRef := some a
          audioContextRef := some a.ctxId
          frequencyData := ⟨w.nextId + 1, List.replicate a.frequencyBinCount 0⟩
          timeDomainData := ⟨w.nextId + 2, List.replicate a.fftSize 0⟩ }
      ⟨{ w with st := s2, nextId := w.nextId + 3 }, currentSession, micAudioConstraints⟩

/-- The continuation of start after the await, useAudio.ts lines 137 to 182. On a
grant: when the session has changed or the hook unmounted, stop the tracks of the
granted stream and return with no other effect; otherwise store the stream, create
and connect a media-stream source, set isActive true and run the first updateData
tick (the AudioContext resume has no observable effect in this model). On a
rejection: when unmounted or stale, return unchanged; otherwise store the mapped
error message and set isActive false. -/
def startResume (currentSession : Nat) (res : AcquireResult)
    (freqSample timeSample : Nat → Nat) (w : World) : World :=
  match res with
  | .granted sid =>
      if currentSession ≠ w.st.sessionRef ∨ w.st.mountedRef = false then
        { w with stoppedStreams := sid :: w.stoppedStreams }
      else
        let srcId := w.nextId
        let s :=
          { w.st with
            streamRef := some sid
            sourceRef := some srcId
            isActive := true }
        updateData currentSession freqSample timeSample
          { w with st := s, nextId := w.nextId + 1 }
  | .failed e =>
      if w.st.mountedRef = false ∨ currentSession ≠ w.st.sessionRef then w
      else
        { w with st :=
            { w.st with error := some (errorMessageFor e), isActive := false } }

/-- The unmount finalizer of the effect at useAudio.ts lines 186 to 192: record
that the hook is unmounted, then stop. -/
def unmount (w : World) : World :=
  stop { w with st := { w.st with mountedRef := false } }

/-- The state observable by a consumer of the hook: the activity flag, the error
message and the two data buffers. -/
def observable (w : World) : Bool × Option String × Buffer × Buffer :=
  (w.st.isActive, w.st.error, w.st.frequencyData, w.st.timeDomainData)

/-- The transform size that start will configure for a given options value: the
fftSize of the supplied analyser, or DEFAULT_FFT_SIZE when the pipeline creates
its own. -/
def configuredFftSize (options : UseAudioOptions) : Nat :=
  match options.analyserNode with
  | some a => a.fftSize
  | none => DEFAULT_FFT_SIZE

/-- Modelled from the spec (section 4.1), for comparison with the code: the
configuration the spec describes, with a transform size, a smoothing coefficient
and three independently toggleable acquisition constraints, each optional and
merged over raw-capture defaults. The code has no such configuration surface. -/
structure SpecPipelineConfig where
  fftSize : Option Nat := none
  smoothingTimeConstant : Option ℚ := none
  echoCancellation : Option Bool := none
  noiseSuppression : Option Bool := none
  autoGainControl : Option Bool := none
deriving DecidableEq

/-- Modelled from the spec (section 4.1): the acquisition constraints the spec
says a merged configuration produces, caller-specified fields overriding the
raw-capture defaults. -/
def spec_requestedConstraints (c : SpecPipelineConfig) : MicConstraints :=
  { echoCancellation := c.echoCancellation.getD false
    noiseSuppression := c.noiseSuppression.getD false
    autoGainControl := c.autoGainControl.getD false }

/-! Helper lemmas: how each operation acts on individual fields. -/

theorem stop_st_error (w : World) : (stop w).st.error = w.st.error := rfl

theorem stop_st_frequencyData (w : World) :
    (stop w).st.frequencyData = w.st.frequencyData := rfl

theorem stop_st_timeDomainData (w : World) :
    (stop w).st.timeDomainData = w.st.timeDomainData := rfl

theorem stop_st_mountedRef (w : World) : (stop w).st.mountedRef = w.st.mountedRef := rfl

theorem stop_st_sessionRef (w : World) :
    (stop w).st.sessionRef = w.st.sessionRef + 1 := rfl

theorem stop_st_streamRef (w : World) : (stop w).st.streamRef = none := rfl

theorem stop_st_sourceRef (w : World) : (stop w).st.sourceRef = none := rfl

theorem stop_st_animationFrameRef (w : World) :
    (stop w).st.animationFrameRef = none := rfl

theorem stop_st_isActive (w : World) :
    (stop w).st.isActive = if w.st.mountedRef then false else w.st.isActive := rfl

theorem stop_st_userProvidedAnalyserRef (w : World) :
    (stop w).st.userProvidedAnalyserRef = w.st.userProvidedAnalyserRef := rfl

theorem stop_nextId (w : World) : (stop w).nextId = w.nextId := rfl

theorem updateData_stale (currentSession : Nat) (f t : Nat → Nat) (w : World)
    (h : currentSession ≠ w.st.sessionRef) :
    updateData currentSession f t w = w := by
  unfold updateData
  cases w.st.analyserRef with
  | none => rfl
  | some a => simp [h]

theorem updateData_st_error (currentSession : Nat) (f t : Nat → Nat) (w : World) :
    (updateData currentSession f t w).st.error = w.st.error := by
  unfold updateData
  cases w.st.analyserRef with
  | none => rfl
  | some a =>
      by_cases h : currentSession = w.st.sessionRef <;> simp [h]

theorem updateData_st_isActive (currentSession : Nat) (f t : Nat → Nat) (w : World) :
    (updateData currentSession f t w).st.isActive = w.st.isActive := by
  unfold updateData
  cases w.st.analyserRef with
  | none => rfl
  | some a =>
      by_cases h : currentSession = w.st.sessionRef <;> simp [h]

theorem updateData_st_sessionRef (currentSession : Nat) (f t : Nat → Nat) (w : World) :
    (updateData currentSession f t w).st.sessionRef = w.st.sessionRef := by
  unfold updateData
  cases w.st.analyserRef with
  | none => rfl
  | some a =>
      by_cases h : currentSession = w.st.sessionRef <;> simp [h]

theorem updateData_st_mountedRef (currentSession : Nat) (f t : Nat → Nat) (w : World) :
    (updateData currentSession f t w).st.mountedRef = w.st.mountedRef := by
  unfold updateData
  cases w.st.analyserRef with
  | none => rfl
  | some a =>
      by_cases h : currentSession = w.st.sessionRef <;> simp [h]

theorem updateData_freq_id (currentSession : Nat) (f t : Nat → Nat) (w : World) :
    (updateData currentSession f t w).st.frequencyData.id = w.st.frequencyData.id := by
  unfold updateData
  cases w.st.analyserRef with
  | none => rfl
  | some a =>
      by_cases h : currentSession = w.st.sessionRef <;> simp [h]

theorem updateData_time_id (currentSession : Nat) (f t : Nat → Nat) (w : World) :
    (updateData currentSession f t w).st.timeDomainData.id = w.st.timeDomainData.id := by
  unfold updateData
  cases w.st.analyserRef with
  | none => rfl
  | some a =>
      by_cases h : currentSession = w.st.sessionRef <;> simp [h]

theorem updateData_freq_length (currentSession : Nat) (f t : Nat → Nat) (w : World) :
    (updateData currentSession f t w).st.frequencyData.data.length
      = w.st.frequencyData.data.length := by
  unfold updateData
  cases w.st.analyserRef with
  | none => rfl
  | some a =>
      by_cases h : currentSession = w.st.sessionRef <;> simp [h]

theorem updateData_time_length (currentSession : Nat) (f t : Nat → Nat) (w : World) :
    (updateData currentSession f t w).st.timeDomainData.data.length
      = w.st.timeDomainData.data.length := by
  unfold updateData
  cases w.st.analyserRef with
  | none => rfl
  | some a =>
      by_cases h : currentSession = w.st.sessionRef <;> simp [h]

theorem startResume_stale_granted (currentSession sid : Nat) (f t : Nat → Nat)
    (w : World) (h : currentSession ≠ w.st.sessionRef) :
    startResume currentSession (.granted sid) f t w
      = { w with stoppedStreams := sid :: w.stoppedStreams } := by
  unfold startResume
  simp [h]

theorem startResume_unmounted_granted (currentSession sid : Nat) (f t : Nat → Nat)
    (w : World) (h : w.st.mountedRef = false) :
    startResume currentSession (.granted sid) f t w
      = { w with stoppedStreams := sid :: w.stoppedStreams } := by
  unfold startResume
  simp [h]

theorem startResume_unmounted_failed (currentSession : Nat) (e : AcquireError)
    (f t : Nat → Nat) (w : World) (h : w.st.mountedRef = false) :
    startResume currentSession (.failed e) f t w = w := by
  unfold startResume
  simp [h]

theorem startResume_stale_failed (currentSession : Nat) (e : AcquireError)
    (f t : Nat → Nat) (w : World) (h : currentSession ≠ w.st.sessionRef) :
    startResume currentSession (.failed e) f t w = w := by
  unfold startResume
  simp [h]

theorem startResume_granted_error (currentSession sid : Nat) (f t : Nat → Nat)
    (w : World) :
    (startResume currentSession (.granted sid) f t w).st.error = w.st.error := by
  simp only [startResume]
  split
  · rfl
  · rw [updateData_st_error]

theorem startAcquire_requested (o : UseAudioOptions) (w : World) :
    (startAcquire o w).requested = micAudioConstraints := by
  unfold startAcquire
  cases o.analyserNode <;> rfl

theorem startAcquire_error_cleared (o : UseAudioOptions) (w : World)
    (h : w.st.mountedRef = true) :
    (startAcquire o w).world.st.error = none := by
  unfold startAcquire
  have hm : (stop w).st.mountedRef = true := h
  cases o.analyserNode <;> simp [hm]

theorem startAcquire_world_mountedRef (o : UseAudioOptions) (w : World) :
    (startAcquire o w).world.st.mountedRef = w.st.mountedRef := by
  unfold startAcquire
  cases o.analyserNode <;> rfl

theorem startAcquire_world_sessionRef (o : UseAudioOptions) (w : World) :
    (startAcquire o w).world.st.sessionRef = w.st.sessionRef + 1 := by
  unfold startAcquire
  cases o.analyserNode <;> rfl

theorem startAcquire_currentSession (o : UseAudioOptions) (w : World) :
    (startAcquire o w).currentSession = w.st.sessionRef + 1 := by
  unfold startAcquire
  cases o.analyserNode <;> rfl

theorem startResume_fresh_granted (currentSession sid : Nat) (f t : Nat → Nat)
    (w : World) (h1 : currentSession = w.st.sessionRef) (h2 : w.st.mountedRef = true) :
    startResume currentSession (.granted sid) f t w
      = updateData currentSession f t
          { w with
            st :=
              { w.st with
                streamRef := some sid
                sourceRef := some w.nextId
                isActive := true }
            nextId := w.nextId + 1 } := by
  simp only [startResume]
  rw [if_neg]
  simp [h1, h2]

theorem startResume_fresh_failed (currentSession : Nat) (e : AcquireError)
    (f t : Nat → Nat) (w : World)
    (h1 : currentSession = w.st.sessionRef) (h2 : w.st.mountedRef = true) :
    startResume currentSession (.failed e) f t w
      = { w with st :=
            { w.st with error := some (errorMessageFor e), isActive := false } } := by
  simp only [startResume]
  rw [if_neg]
  simp [h1, h2]

/-! Claim theorems. -/

/-- C5: stop is idempotent and total: from any mounted pipeline state, stop leaves
ActivityFlag false, and two consecutive stops produce the same observable state
(activity flag, error, both buffers) as one. Totality holds by construction: stop
is a total function of the embedding. -/
theorem useAudio_C5_stop_idempotent (w : World) (h : w.st.mountedRef = true) :
    (stop w).st.isActive = false
    ∧ observable (stop (stop w)) = observable (stop w) := by
  constructor
  · rw [stop_st_isActive, h]
    rfl
  · unfold observable
    rw [stop_st_error, stop_st_error, stop_st_frequencyData, stop_st_frequencyData,
      stop_st_timeDomainData, stop_st_timeDomainData,
      stop_st_isActive (stop w), stop_st_isActive w, stop_st_mountedRef, h]
    simp

/-- Witness for C5 at the initial world. -/
theorem useAudio_C5_witness :
    initWorld.st.mountedRef = true
    ∧ ((stop initWorld).st.isActive = false
       ∧ observable (stop (stop initWorld)) = observable (stop initWorld)) :=
  ⟨rfl, useAudio_C5_stop_idempotent initWorld rfl⟩

/-- C6: ErrorState is written only by start: stop leaves the error unchanged, a
start attempt (on a mounted pipeline) clears it to null, a granted acquisition
resumption leaves it unchanged, and refresh ticks leave it unchanged; only the
failure branch of a start attempt ever writes a non-null message. -/
theorem useAudio_C6_error_only_start (w w2 : World) (o : UseAudioOptions)
    (cs sid : Nat) (f t : Nat → Nat) (h : w2.st.mountedRef = true) :
    (stop w).st.error = w.st.error
    ∧ (startAcquire o w2).world.st.error = none
    ∧ (startResume cs (.granted sid) f t w).st.error = w.st.error
    ∧ (updateData cs f t w).st.error = w.st.error :=
  ⟨stop_st_error w, startAcquire_error_cleared o w2 h,
    startResume_granted_error cs sid f t w, updateData_st_error cs f t w⟩

/-- Witness for C6 at the initial world. -/
theorem useAudio_C6_witness :
    initWorld.st.mountedRef = true
    ∧ ((stop initWorld).st.error = initWorld.st.error
       ∧ (startAcquire ⟨none⟩ initWorld).world.st.error = none
       ∧ (startResume 0 (.granted 7) (fun _ => 0) (fun _ => 0) initWorld).st.error
           = initWorld.st.error
       ∧ (updateData 0 (fun _ => 0) (fun _ => 0) initWorld).st.error
           = initWorld.st.error) :=
  ⟨rfl, useAudio_C6_error_only_start initWorld initWorld ⟨none⟩ 0 7
    (fun _ => 0) (fun _ => 0) rfl⟩

/-- C8: when the analyser is caller-supplied (userProvidedAnalyserRef true), stop
leaves the analyser and the audio context untouched and closes no context, while
still stopping the tracks of a held stream and disconnecting a held source; when
the pipeline owns the analyser, stop closes the held audio context and drops the
analyser. -/
theorem useAudio_C8_ownership (w wo : World) (sid sc c : Nat)
    (hu : w.st.userProvidedAnalyserRef = true)
    (ho : wo.st.userProvidedAnalyserRef = false) :
    (stop w).st.analyserRef = w.st.analyserRef
    ∧ (stop w).st.audioContextRef = w.st.audioContextRef
    ∧ (stop w).closedContexts = w.closedContexts
    ∧ (w.st.streamRef = some sid → sid ∈ (stop w).stoppedStreams)
    ∧ (stop w).st.streamRef = none
    ∧ (w.st.sourceRef = some sc → sc ∈ (stop w).disconnectedSources)
    ∧ (stop w).st.sourceRef = none
    ∧ (stop wo).st.analyserRef = none
    ∧ (wo.st.audioContextRef = some c → c ∈ (stop wo).closedContexts)
    ∧ (stop wo).st.audioContextRef = none := by
  refine ⟨?_, ?_, ?_, ?_, rfl, ?_, rfl, ?_, ?_, ?_⟩
  · simp [stop, hu]
  · simp [stop, hu]
  · simp [stop, hu]
  · intro hs
    simp [stop, hs]
  · intro hs
    simp [stop, hs]
  · simp [stop, ho]
  · intro hc
    simp [stop, ho, hc]
  · simp [stop, ho]

/-- A concrete world holding a caller-supplied analyser, a stream and a source,
used to witness C8. -/
def sampleUserWorld : World :=
  { initWorld with st :=
      { initWorld.st with
        userProvidedAnalyserRef := true
        analyserRef := some ⟨9, 512, 1 / 2⟩
        audioContextRef := some 9
        streamRef := some 3
        sourceRef := some 4 } }

/-- A concrete world holding a pipeline-owned analyser and context, used to
witness C8. -/
def sampleOwnedWorld : World :=
  { initWorld with st :=
      { initWorld.st with
        userProvidedAnalyserRef := false
        analyserRef := some ⟨5, 2048, 4 / 5⟩
        audioContextRef := some 5 } }

/-- Witness for C8 at concrete mounted worlds with held resources. -/
theorem useAudio_C8_witness :
    sampleUserWorld.st.userProvidedAnalyserRef = true
    ∧ sampleOwnedWorld.st.userProvidedAnalyserRef = false
    ∧ ((stop sampleUserWorld).st.analyserRef = sampleUserWorld.st.analyserRef
       ∧ (stop sampleUserWorld).st.audioContextRef = sampleUserWorld.st.audioContextRef
       ∧ (stop sampleUserWorld).closedContexts = sampleUserWorld.closedContexts
       ∧ (sampleUserWorld.st.streamRef = some 3
          → 3 ∈ (stop sampleUserWorld).stoppedStreams)
       ∧ (stop sampleUserWorld).st.streamRef = none
       ∧ (sampleUserWorld.st.sourceRef = some 4
          → 4 ∈ (stop sampleUserWorld).disconnectedSources)
       ∧ (stop sampleUserWorld).st.sourceRef = none
       ∧ (stop sampleOwnedWorld).st.analyserRef = none
       ∧ (sampleOwnedWorld.st.audioContextRef = some 5
          → 5 ∈ (stop sampleOwnedWorld).closedContexts)
       ∧ (stop sampleOwnedWorld).st.audioContextRef = none) :=
  ⟨rfl, rfl, useAudio_C8_ownership sampleUserWorld sampleOwnedWorld 3 4 5 rfl rfl⟩

/-- C9, counterexample: the spec describes a configuration whose merged
acquisition constraints can request echo cancellation, but the code requests the
same fixed all-false constraints for every possible options value, because its
options type recognizes only analyserNode; here a spec configuration setting
echoCancellation produces constraints the code can never request. -/
theorem useAudio_C9_counterexample :
    spec_requestedConstraints { echoCancellation := some true } ≠ micAudioConstraints
    ∧ (startAcquire { analyserNode := none } initWorld).requested = micAudioConstraints
    ∧ (startAcquire { analyserNode := some ⟨0, 512, 1 / 2⟩ } initWorld).requested
        = micAudioConstraints :=
  ⟨by decide, rfl, rfl⟩

/-- C9 as amended: the configuration accepts a single recognized option, an
optional caller-supplied analyser; the acquisition constraints are fixed at raw
capture (echo cancellation, noise suppression and automatic gain control all
false) for every options value, and only a pipeline-created analyser receives the
default transform size 2048 and smoothing coefficient 0.8. -/
theorem useAudio_C9_amended (o : UseAudioOptions) (w : World) :
    (startAcquire o w).requested = micAudioConstraints
    ∧ micAudioConstraints.echoCancellation = false
    ∧ micAudioConstraints.noiseSuppression = false
    ∧ micAudioConstraints.autoGainControl = false
    ∧ ((startAcquire ⟨none⟩ w).world.st.analyserRef).map Analyser.fftSize
        = some DEFAULT_FFT_SIZE
    ∧ ((startAcquire ⟨none⟩ w).world.st.analyserRef).map Analyser.smoothingTimeConstant
        = some (4 / 5) :=
  ⟨startAcquire_requested o w, rfl, rfl, rfl, rfl, rfl⟩

/-- C10: a caller-supplied analyser is stored unchanged by start (its fftSize and
smoothingTimeConstant fields are exactly those the caller configured), and only a
pipeline-created analyser is assigned fftSize 2048 and smoothingTimeConstant 0.8. -/
theorem useAudio_C10_supplied_analyser_untouched (a : Analyser) (w : World) :
    (startAcquire ⟨some a⟩ w).world.st.analyserRef = some a
    ∧ ((startAcquire ⟨none⟩ w).world.st.analyserRef).map Analyser.fftSize = some 2048
    ∧ ((startAcquire ⟨none⟩ w).world.st.analyserRef).map Analyser.smoothingTimeConstant
        = some (4 / 5) :=
  ⟨rfl, rfl, rfl⟩

/-- C2: disposal invokes stop as a finalizer (the session counter is bumped and
the pending refresh tick cancelled, with the mounted flag cleared), and after
disposal a pending acquisition that resolves mutates no pipeline state: a grant
leaves the whole state unchanged and only stops the tracks of the granted stream,
and a rejection leaves the world entirely unchanged. -/
theorem useAudio_C2_disposal_safety (w : World) (cs sid : Nat) (e : AcquireError)
    (f t : Nat → Nat) :
    (unmount w).st.sessionRef = w.st.sessionRef + 1
    ∧ (unmount w).st.animationFrameRef = none
    ∧ (unmount w).st.mountedRef = false
    ∧ (startResume cs (.granted sid) f t (unmount w)).st = (unmount w).st
    ∧ sid ∈ (startResume cs (.granted sid) f t (unmount w)).stoppedStreams
    ∧ startResume cs (.failed e) f t (unmount w) = unmount w := by
  have hm : (unmount w).st.mountedRef = false := rfl
  refine ⟨rfl, rfl, rfl, ?_, ?_, startResume_unmounted_failed cs e f t (unmount w) hm⟩
  · rw [startResume_unmounted_granted cs sid f t (unmount w) hm]
  · rw [startResume_unmounted_granted cs sid f t (unmount w) hm]
    exact List.mem_cons_self _ _

/-- C4: when the acquisition fails while the session is still current on a mounted
pipeline, no exception propagates (startResume is a total function of the
embedding); ActivityFlag ends false, and ErrorState receives the mapped message:
a fixed permission message for NotAllowedError, a fixed no-device message for
NotFoundError, and the underlying message of the error for any other Error. -/
theorem useAudio_C4_failure_mapping (w : World) (cs : Nat) (name msg : String)
    (f t : Nat → Nat) (hm : w.st.mountedRef = true) (hs : cs = w.st.sessionRef) :
    (startResume cs (.failed (.jsError "NotAllowedError" msg)) f t w).st.error
        = some "Microphone permission denied"
    ∧ (startResume cs (.failed (.jsError "NotFoundError" msg)) f t w).st.error
        = some "No microphone found"
    ∧ (name ≠ "NotAllowedError" → name ≠ "NotFoundError" →
        (startResume cs (.failed (.jsError name msg)) f t w).st.error = some msg)
    ∧ (startResume cs (.failed (.jsError name msg)) f t w).st.isActive = false := by
  refine ⟨?_, ?_, ?_, ?_⟩
  · rw [startResume_fresh_failed cs _ f t w hs hm]
    simp [errorMessageFor]
  · rw [startResume_fresh_failed cs _ f t w hs hm]
    simp [errorMessageFor]
  · intro h1 h2
    rw [startResume_fresh_failed cs _ f t w hs hm]
    simp [errorMessageFor, h1, h2]
  · rw [startResume_fresh_failed cs _ f t w hs hm]

/-- Witness for C4 at the initial world with a session-current failure. -/
theorem useAudio_C4_witness :
    initWorld.st.mountedRef = true
    ∧ (0 : Nat) = initWorld.st.sessionRef
    ∧ ((startResume 0 (.failed (.jsError "NotAllowedError" "boom")) (fun _ => 0)
          (fun _ => 0) initWorld).st.error = some "Microphone permission denied"
       ∧ (startResume 0 (.failed (.jsError "NotFoundError" "boom")) (fun _ => 0)
          (fun _ => 0) initWorld).st.error = some "No microphone found"
       ∧ ("SecurityError" ≠ "NotAllowedError" → "SecurityError" ≠ "NotFoundError" →
          (startResume 0 (.failed (.jsError "SecurityError" "boom")) (fun _ => 0)
            (fun _ => 0) initWorld).st.error = some "boom")
       ∧ (startResume 0 (.failed (.jsError "SecurityError" "boom")) (fun _ => 0)
          (fun _ => 0) initWorld).st.isActive = false) :=
  ⟨rfl, rfl, useAudio_C4_failure_mapping initWorld 0 "SecurityError" "boom"
    (fun _ => 0) (fun _ => 0) rfl rfl⟩

/-- A start whose acquisition resolves with a grant while the session is still
current: the synchronous prefix of start followed by the resumption with the
granted stream. -/
def startWithGrant (o : UseAudioOptions) (sid : Nat) (f t : Nat → Nat)
    (w : World) : World :=
  startResume (startAcquire o w).currentSession (.granted sid) f t
    (startAcquire o w).world

/-- C3: after a successful start on an analyser with power-of-two transform size
N at least 32, FrequencyBuffer has length N / 2 and TimeDomainBuffer has length
N, ActivityFlag is true and ErrorState is null; with no supplied analyser the
default transform size 2048 gives lengths 1024 and 2048. -/
theorem useAudio_C3_successful_start (a : Analyser) (sid : Nat) (f t : Nat → Nat)
    (_hpow : ∃ k, a.fftSize = 2 ^ k) (_h32 : 32 ≤ a.fftSize) :
    (startWithGrant ⟨some a⟩ sid f t initWorld).st.frequencyData.data.length
        = a.fftSize / 2
    ∧ (startWithGrant ⟨some a⟩ sid f t initWorld).st.timeDomainData.data.length
        = a.fftSize
    ∧ (startWithGrant ⟨some a⟩ sid f t initWorld).st.isActive = true
    ∧ (startWithGrant ⟨some a⟩ sid f t initWorld).st.error = none
    ∧ (startWithGrant ⟨none⟩ sid f t initWorld).st.frequencyData.data.length = 1024
    ∧ (startWithGrant ⟨none⟩ sid f t initWorld).st.timeDomainData.data.length = 2048
    ∧ (startWithGrant ⟨none⟩ sid f t initWorld).st.isActive = true
    ∧ (startWithGrant ⟨none⟩ sid f t initWorld).st.error = none := by
  have hm1 : (startAcquire (⟨some a⟩ : UseAudioOptions) initWorld).world.st.mountedRef
      = true := by
    rw [startAcquire_world_mountedRef]
    rfl
  have hs1 : (startAcquire (⟨some a⟩ : UseAudioOptions) initWorld).currentSession
      = (startAcquire (⟨some a⟩ : UseAudioOptions) initWorld).world.st.sessionRef := by
    rw [startAcquire_currentSession, startAcquire_world_sessionRef]
  have hm2 : (startAcquire (⟨none⟩ : UseAudioOptions) initWorld).world.st.mountedRef
      = true := by
    rw [startAcquire_world_mountedRef]
    rfl
  have hs2 : (startAcquire (⟨none⟩ : UseAudioOptions) initWorld).currentSession
      = (startAcquire (⟨none⟩ : UseAudioOptions) initWorld).world.st.sessionRef := by
    rw [startAcquire_currentSession, startAcquire_world_sessionRef]
  have e1 := startResume_fresh_granted
    ((startAcquire (⟨some a⟩ : UseAudioOptions) initWorld).currentSession) sid f t
    ((startAcquire (⟨some a⟩ : UseAudioOptions) initWorld).world) hs1 hm1
  have e2 := startResume_fresh_granted
    ((startAcquire (⟨none⟩ : UseAudioOptions) initWorld).currentSession) sid f t
    ((startAcquire (⟨none⟩ : UseAudioOptions) initWorld).world) hs2 hm2
  unfold startWithGrant
  rw [e1, e2]
  refine ⟨?_, ?_, ?_, ?_, ?_, ?_, ?_, ?_⟩
  · rw [updateData_freq_length]
    show (List.replicate (a.fftSize / 2) 0).length = a.fftSize / 2
    simp
  · rw [updateData_time_length]
    show (List.replicate a.fftSize 0).length = a.fftSize
    simp
  · rw [updateData_st_isActive]
  · rw [updateData_st_error]
    rfl
  · rw [updateData_freq_length]
    show (List.replicate (DEFAULT_FFT_SIZE / 2) 0).length = 1024
    rw [List.length_replicate]
    rfl
  · rw [updateData_time_length]
    show (List.replicate DEFAULT_FFT_SIZE 0).length = 2048
    rw [List.length_replicate]
    rfl
  · rw [updateData_st_isActive]
  · rw [updateData_st_error]
    rfl

/-- Witness for C3: the default transform size 2048 is a power of two at least
32, and a successful start on an analyser configured with it yields buffer
lengths 1024 and 2048, an active flag and no error. -/
theorem useAudio_C3_witness :
    (∃ k, (2048 : Nat) = 2 ^ k) ∧ (32 : Nat) ≤ 2048
    ∧ ((startWithGrant ⟨some ⟨9, 2048, 4 / 5⟩⟩ 7 (fun _ => 0) (fun _ => 0)
          initWorld).st.frequencyData.data.length = 2048 / 2
       ∧ (startWithGrant ⟨some ⟨9, 2048, 4 / 5⟩⟩ 7 (fun _ => 0) (fun _ => 0)
          initWorld).st.timeDomainData.data.length = 2048
       ∧ (startWithGrant ⟨some ⟨9, 2048, 4 / 5⟩⟩ 7 (fun _ => 0) (fun _ => 0)
          initWorld).st.isActive = true
       ∧ (startWithGrant ⟨some ⟨9, 2048, 4 / 5⟩⟩ 7 (fun _ => 0) (fun _ => 0)
          initWorld).st.error = none
       ∧ (startWithGrant ⟨none⟩ 7 (fun _ => 0) (fun _ => 0)
          initWorld).st.frequencyData.data.length = 1024
       ∧ (startWithGrant ⟨none⟩ 7 (fun _ => 0) (fun _ => 0)
          initWorld).st.timeDomainData.data.length = 2048
       ∧ (startWithGrant ⟨none⟩ 7 (fun _ => 0) (fun _ => 0)
          initWorld).st.isActive = true
       ∧ (startWithGrant ⟨none⟩ 7 (fun _ => 0) (fun _ => 0)
          initWorld).st.error = none) :=
  ⟨⟨11, by norm_num⟩, by norm_num,
    useAudio_C3_successful_start ⟨9, 2048, 4 / 5⟩ 7 (fun _ => 0) (fun _ => 0)
      ⟨11, by norm_num⟩ (by norm_num)⟩

/-- The world after a start attempt from the initial world whose acquisition is
denied while the session is still current: the permission-denied error path. -/
def deniedStartWorld : World :=
  startResume (startAcquire ⟨none⟩ initWorld).currentSession
    (.failed (.jsError "NotAllowedError" "denied")) (fun _ => 0) (fun _ => 0)
    (startAcquire ⟨none⟩ initWorld).world

/-- C7, counterexample: a start attempt whose acquisition is denied never becomes
a successful session (ActivityFlag stays false and ErrorState is set), yet both
buffers have already been reallocated with new identities and analyser-derived
lengths; so reallocation is not restricted to the start of a successful session. -/
theorem useAudio_C7_counterexample :
    deniedStartWorld.st.isActive = false
    ∧ deniedStartWorld.st.error = some "Microphone permission denied"
    ∧ deniedStartWorld.st.frequencyData.id ≠ initWorld.st.frequencyData.id
    ∧ deniedStartWorld.st.timeDomainData.id ≠ initWorld.st.timeDomainData.id
    ∧ deniedStartWorld.st.frequencyData.data.length = 1024
    ∧ deniedStartWorld.st.timeDomainData.data.length = 2048 := by
  refine ⟨rfl, by decide, by decide, by decide, ?_, ?_⟩
  · show (List.replicate (DEFAULT_FFT_SIZE / 2) 0).length = 1024
    rw [List.length_replicate]
    rfl
  · show (List.replicate DEFAULT_FFT_SIZE 0).length = 2048
    rw [List.length_replicate]
    rfl

/-- C7 as amended: both buffers are reallocated with fresh identities and
analyser-derived lengths during every start attempt, before the acquisition
resolves and whether or not the session succeeds; every refresh tick overwrites
them in place with unchanged identity and length; the resumption of a granted
acquisition never changes their identity; and stop leaves both buffers entirely
unchanged, so consumers reading after stop observe the last values written. -/
theorem useAudio_C7_amended (w : World) (o : UseAudioOptions) (cs sid : Nat)
    (f t : Nat → Nat)
    (hf : w.st.frequencyData.id < w.nextId) (ht : w.st.timeDomainData.id < w.nextId) :
    (startAcquire o w).world.st.frequencyData.id ≠ w.st.frequencyData.id
    ∧ (startAcquire o w).world.st.timeDomainData.id ≠ w.st.timeDomainData.id
    ∧ (startAcquire o w).world.st.frequencyData.data.length = configuredFftSize o / 2
    ∧ (startAcquire o w).world.st.timeDomainData.data.length = configuredFftSize o
    ∧ (updateData cs f t w).st.frequencyData.id = w.st.frequencyData.id
    ∧ (updateData cs f t w).st.timeDomainData.id = w.st.timeDomainData.id
    ∧ (updateData cs f t w).st.frequencyData.data.length = w.st.frequencyData.data.length
    ∧ (updateData cs f t w).st.timeDomainData.data.length
        = w.st.timeDomainData.data.length
    ∧ (startResume cs (.granted sid) f t w).st.frequencyData.id = w.st.frequencyData.id
    ∧ (startResume cs (.granted sid) f t w).st.timeDomainData.id
        = w.st.timeDomainData.id
    ∧ (stop w).st.frequencyData = w.st.frequencyData
    ∧ (stop w).st.timeDomainData = w.st.timeDomainData := by
  obtain ⟨an⟩ := o
  refine ⟨?_, ?_, ?_, ?_, updateData_freq_id cs f t w, updateData_time_id cs f t w,
    updateData_freq_length cs f t w, updateData_time_length cs f t w, ?_, ?_,
    stop_st_frequencyData w, stop_st_timeDomainData w⟩
  · cases an with
    | some a =>
        show w.nextId ≠ w.st.frequencyData.id
        omega
    | none =>
        show w.nextId + 1 ≠ w.st.frequencyData.id
        omega
  · cases an with
    | some a =>
        show w.nextId + 1 ≠ w.st.timeDomainData.id
        omega
    | none =>
        show w.nextId + 2 ≠ w.st.timeDomainData.id
        omega
  · cases an with
    | some a =>
        show (List.replicate (a.fftSize / 2) 0).length = a.fftSize / 2
        rw [List.length_replicate]
    | none =>
        exact List.length_replicate _ _
  · cases an with
    | some a =>
        show (List.replicate a.fftSize 0).length = a.fftSize
        rw [List.length_replicate]
    | none =>
        exact List.length_replicate _ _
  · simp only [startResume]
    split
    · rfl
    · rw [updateData_freq_id]
  · simp only [startResume]
    split
    · rfl
    · rw [updateData_time_id]

/-- Witness for C7 as amended, at the initial world whose two buffers carry the
identities 0 and 1 below the allocator value 2. -/
theorem useAudio_C7_witness :
    initWorld.st.frequencyData.id < initWorld.nextId
    ∧ initWorld.st.timeDomainData.id < initWorld.nextId
    ∧ ((startAcquire ⟨none⟩ initWorld).world.st.frequencyData.id
          ≠ initWorld.st.frequencyData.id
       ∧ (startAcquire ⟨none⟩ initWorld).world.st.timeDomainData.id
          ≠ initWorld.st.timeDomainData.id
       ∧ (startAcquire ⟨none⟩ initWorld).world.st.frequencyData.data.length
          = configuredFftSize ⟨none⟩ / 2
       ∧ (startAcquire ⟨none⟩ initWorld).world.st.timeDomainData.data.length
          = configuredFftSize ⟨none⟩
       ∧ (updateData 0 (fun _ => 0) (fun _ => 0) initWorld).st.frequencyData.id
          = initWorld.st.frequencyData.id
       ∧ (updateData 0 (fun _ => 0) (fun _ => 0) initWorld).st.timeDomainData.id
          = initWorld.st.timeDomainData.id
       ∧ (updateData 0 (fun _ => 0) (fun _ => 0) initWorld).st.frequencyData.data.length
          = initWorld.st.frequencyData.data.length
       ∧ (updateData 0 (fun _ => 0) (fun _ => 0) initWorld).st.timeDomainData.data.length
          = initWorld.st.timeDomainData.data.length
       ∧ (startResume 0 (.granted 7) (fun _ => 0) (fun _ => 0)
            initWorld).st.frequencyData.id = initWorld.st.frequencyData.id
       ∧ (startResume 0 (.granted 7) (fun _ => 0) (fun _ => 0)
            initWorld).st.timeDomainData.id = initWorld.st.timeDomainData.id
       ∧ (stop initWorld).st.frequencyData = initWorld.st.frequencyData
       ∧ (stop initWorld).st.timeDomainData = initWorld.st.timeDomainData) :=
  ⟨by decide, by decide,
    useAudio_C7_amended initWorld ⟨none⟩ 0 7 (fun _ => 0) (fun _ => 0)
      (by decide) (by decide)⟩

/-- The first of two rapid start attempts, suspended at its acquisition. -/
def firstStartPending : StartPending := startAcquire ⟨none⟩ initWorld

/-- The second start attempt, issued before the acquisition of the first
resolves. -/
def secondStartPending : StartPending := startAcquire ⟨none⟩ firstStartPending.world

/-- C1: when start is called twice in succession with the second call before the
acquisition of the first resolves, the late grant of the first session never
mutates pipeline state (in either arrival order, before or after the grant of
the second session) and the hardware stream it obtained has its tracks stopped,
while the grant of the second session sets ActivityFlag true. -/
theorem useAudio_C1_second_session_wins (sid1 sid2 : Nat) (f1 t1 f2 t2 : Nat → Nat) :
    (startResume firstStartPending.currentSession (.granted sid1) f1 t1
        secondStartPending.world).st = secondStartPending.world.st
    ∧ sid1 ∈ (startResume firstStartPending.currentSession (.granted sid1) f1 t1
        secondStartPending.world).stoppedStreams
    ∧ (startResume secondStartPending.currentSession (.granted sid2) f2 t2
        (startResume firstStartPending.currentSession (.granted sid1) f1 t1
          secondStartPending.world)).st.isActive = true
    ∧ (startResume firstStartPending.currentSession (.granted sid1) f1 t1
        (startResume secondStartPending.currentSession (.granted sid2) f2 t2
          secondStartPending.world)).st
      = (startResume secondStartPending.currentSession (.granted sid2) f2 t2
          secondStartPending.world).st
    ∧ sid1 ∈ (startResume firstStartPending.currentSession (.granted sid1) f1 t1
        (startResume secondStartPending.currentSession (.granted sid2) f2 t2
          secondStartPending.world)).stoppedStreams := by
  have h1 : firstStartPending.currentSession ≠ secondStartPending.world.st.sessionRef :=
    by decide
  have e1 := startResume_stale_granted firstStartPending.currentSession sid1 f1 t1
    secondStartPending.world h1
  have hs2 : secondStartPending.currentSession
      = secondStartPending.world.st.sessionRef := by decide
  have hm2 : secondStartPending.world.st.mountedRef = true := by decide
  have e2 := startResume_fresh_granted secondStartPending.currentSession sid2 f2 t2
    secondStartPending.world hs2 hm2
  have h5 : firstStartPending.currentSession
      ≠ (startResume secondStartPending.currentSession (.granted sid2) f2 t2
          secondStartPending.world).st.sessionRef := by
    rw [e2, updateData_st_sessionRef]
    exact h1
  refine ⟨?_, ?_, ?_, ?_, ?_⟩
  · rw [e1]
  · rw [e1]
    exact List.mem_cons_self _ _
  · rw [e1]
    have hs3 : secondStartPending.currentSession
        = ({ secondStartPending.world with
              stoppedStreams := sid1 :: secondStartPending.world.stoppedStreams }
            : World).st.sessionRef := hs2
    have hm3 : ({ secondStartPending.world with
        stoppedStreams := sid1 :: secondStartPending.world.stoppedStreams }
          : World).st.mountedRef = true := hm2
    rw [startResume_fresh_granted secondStartPending.currentSession sid2 f2 t2 _
      hs3 hm3, updateData_st_isActive]
  · rw [startResume_stale_granted firstStartPending.currentSession sid1 f1 t1 _ h5]
  · rw [startResume_stale_granted firstStartPending.currentSession sid1 f1 t1 _ h5]
    exact List.mem_cons_self _ _

end AvoraAudio
